import Mathlib

/-!
Verification of the ebook progress reconciliation engine
(`EbookProgressSyncManager` and its collaborators).

The Swift manager is embedded shallowly:

* Realm objects become plain structures; the Realm store becomes a
  `List LocalMediaProgress`.
* The collaborators (`Store.serverConfig`, `ApiClient`, the Realm lookup of
  the server library item id, the clock) become the fields of a `SyncEnv`
  record, so a run of the manager is a pure function of the environment and
  the manager state.
* Timestamps and progress fractions (`Double` in Swift, used only for
  copying and order comparisons here) become rationals.
* Each transport interaction and each backoff sleep is recorded in a trace
  of `SyncEvent`s, so theorems can speak about which calls were made.
-/

set_option autoImplicit false

namespace EbookSync

/-- Server-side media progress snapshot (`MediaProgress`). -/
structure MediaProgress where
  libraryItemId : String
  ebookLocation : Option String
  ebookProgress : ℚ
  lastUpdate : ℚ
  isFinished : Bool
  deriving Repr, DecidableEq

/-- Device-side progress record (`LocalMediaProgress`, including the
`lastServerSync` field added by the sync extension). -/
structure LocalMediaProgress where
  id : String
  localLibraryItemId : String
  serverConnectionConfigId : Option String
  ebookLocation : Option String
  ebookProgress : ℚ
  lastUpdate : ℚ
  isFinished : Bool
  lastServerSync : Option ℚ
  deriving Repr, DecidableEq

/-- The slice of `ServerConnectionConfig` the manager reads. -/
structure ServerConnectionConfig where
  id : String
  deriving Repr, DecidableEq

/-- Payload of a push to the server, as assembled by `sendProgressToServer`
(`ebookLocation ?? ""`, `ebookProgress`, `lastUpdate`, `isFinished`). -/
structure PushPayload where
  ebookLocation : String
  ebookProgress : ℚ
  lastUpdate : ℚ
  isFinished : Bool
  deriving Repr, DecidableEq

/-- Observable interactions of one run: backoff sleeps, progress fetches
(`fetchServerProgress`) and progress pushes (`sendProgressToServer`). -/
inductive SyncEvent where
  | slept (delay : ℚ)
  | fetch (libraryItemId : String)
  | push (libraryItemId : String) (payload : PushPayload)
  deriving Repr, DecidableEq

/-- The collaborators of the manager, frozen for one run. -/
structure SyncEnv where
  /-- `Store.serverConfig`. -/
  serverConfig : Option ServerConnectionConfig
  /-- `ApiClient.isConnectedToInternet`. -/
  networkAvailable : Bool
  /-- `getServerLibraryItemId`: Realm lookup of the local library item's
  remote `libraryItemId`; `none` when the item has no remote mapping. -/
  serverLibraryItemId : String → Option String
  /-- `fetchServerProgress`: `.error ()` when the request fails with an
  error, `.ok none` when the server has no progress for the item. -/
  fetchProgress : String → Except Unit (Option MediaProgress)
  /-- Outcome of `sendProgressToServer` (its failure handler resumes with
  `false`, it never throws). -/
  pushResult : String → Bool
  /-- `Date().timeIntervalSince1970 * 1000` at the moment a sync is marked. -/
  now : ℚ

/-- Mutable manager state: the `retryAttempts` dictionary
(progressId → retry count), the `isCurrentlySyncing` flag, and the Realm
store of progress records. -/
structure ManagerState where
  retryAttempts : List (String × Nat)
  isCurrentlySyncing : Bool
  store : List LocalMediaProgress
  deriving Repr, DecidableEq

/-- `retryAttempts[progressId]` dictionary read. -/
def getRetry (m : List (String × Nat)) (k : String) : Option Nat :=
  (m.find? (fun kv => kv.1 == k)).map (fun kv => kv.2)

/-- `retryAttempts.removeValue(forKey:)`. -/
def removeRetry (m : List (String × Nat)) (k : String) : List (String × Nat) :=
  m.filter (fun kv => kv.1 != k)

/-- `retryAttempts[progressId] = v` dictionary write. -/
def setRetry (m : List (String × Nat)) (k : String) (v : Nat) : List (String × Nat) :=
  (k, v) :: removeRetry m k

/-- `maxRetryAttempts` configuration constant. -/
def maxRetryAttempts : Nat := 5

/-- `baseRetryDelay` configuration constant (2 seconds). -/
def baseRetryDelay : ℚ := 2

/-- `calculateRetryDelay(attempt:)`: `pow(2.0, Double(attempt)) * baseRetryDelay`. -/
def calculateRetryDelay (attempt : Nat) : ℚ :=
  2 ^ attempt * baseRetryDelay

/-- Outcome of the pure decision inside `resolveProgressConflicts`:
keep the local record, or overwrite it with the server snapshot. -/
inductive Resolution where
  | useLocal
  | useServer
  deriving Repr, DecidableEq

/-- The decision chain of `resolveProgressConflicts` once a server snapshot
exists: furthest `ebookProgress` wins; on equal fractions the
`lastUpdate` comparison `local > server` keeps local, otherwise the server
snapshot is applied. -/
def resolveDecision (localProgress : LocalMediaProgress) (serverProgress : MediaProgress) :
    Resolution :=
  if localProgress.ebookProgress > serverProgress.ebookProgress then .useLocal
  else if serverProgress.ebookProgress > localProgress.ebookProgress then .useServer
  else if localProgress.lastUpdate > serverProgress.lastUpdate then .useLocal
  else .useServer

/-- Modelled from the spec: `LocalMediaProgress.updateFromServerMediaProgress`
is not under src/ (only its caller `updateLocalProgressFromServer` is).
Per the spec, when the server wins the coordinator applies the server's
location, progress fraction and finished flag onto the local record and sets
the record's last-update timestamp to the server's timestamp. -/
def updateFromServerMediaProgress (p : LocalMediaProgress) (s : MediaProgress) :
    LocalMediaProgress :=
  { p with
    ebookLocation := s.ebookLocation
    ebookProgress := s.ebookProgress
    isFinished := s.isFinished
    lastUpdate := s.lastUpdate }

/-- Realm write applied to the store entry with the given progress id. -/
def storeUpdate (store : List LocalMediaProgress) (progressId : String)
    (f : LocalMediaProgress → LocalMediaProgress) : List LocalMediaProgress :=
  store.map (fun q => if q.id == progressId then f q else q)

/-- Realm query `filter("localLibraryItemId == %@", localLibraryItemId).first`. -/
def storeFindByLocalItem (store : List LocalMediaProgress) (localLibraryItemId : String) :
    Option LocalMediaProgress :=
  store.find? (fun q => q.localLibraryItemId == localLibraryItemId)

/-- Store entry with the given progress id (primary-key lookup). -/
def storeFindById (store : List LocalMediaProgress) (progressId : String) :
    Option LocalMediaProgress :=
  store.find? (fun q => q.id == progressId)

/-- `resolveProgressConflicts`: fetch the server progress, return the local
record when no server record exists or local wins, and otherwise write the
server snapshot into the local record (`updateLocalProgressFromServer`)
before returning it.  The error case is a fetch that throws. -/
def resolveProgressConflicts (env : SyncEnv) (store : List LocalMediaProgress)
    (p : LocalMediaProgress) (serverLibraryItemId : String) :
    Except Unit (List LocalMediaProgress × LocalMediaProgress) :=
  match env.fetchProgress serverLibraryItemId with
  | .error e => .error e
  | .ok none => .ok (store, p)
  | .ok (some serverProgress) =>
    match resolveDecision p serverProgress with
    | .useLocal => .ok (store, p)
    | .useServer =>
      let p' := updateFromServerMediaProgress p serverProgress
      .ok (storeUpdate store p.id (fun _ => p'), p')

/-- `syncProgressItem`: retry-exhaustion guard, backoff sleep, remote-mapping
guard, conflict resolution, push of the resolved progress, and bookkeeping
of `lastServerSync` / `retryAttempts` on the outcome.  Returns the new
manager state and the trace of observable events of this attempt. -/
def syncProgressItem (env : SyncEnv) (st : ManagerState) (p : LocalMediaProgress) :
    ManagerState × List SyncEvent :=
  let progressId := p.id
  let currentRetries := (getRetry st.retryAttempts progressId).getD 0
  if currentRetries ≥ maxRetryAttempts then
    ({ st with retryAttempts := removeRetry st.retryAttempts progressId }, [])
  else
    let sleepEvents :=
      if currentRetries > 0 then [SyncEvent.slept (calculateRetryDelay currentRetries)] else []
    match env.serverLibraryItemId p.localLibraryItemId with
    | none => (st, sleepEvents)
    | some serverLibraryItemId =>
      match resolveProgressConflicts env st.store p serverLibraryItemId with
      | .error _ =>
        ({ st with retryAttempts := setRetry st.retryAttempts progressId (currentRetries + 1) },
         sleepEvents ++ [SyncEvent.fetch serverLibraryItemId])
      | .ok (store1, resolved) =>
        let payload : PushPayload :=
          { ebookLocation := resolved.ebookLocation.getD ""
            ebookProgress := resolved.ebookProgress
            lastUpdate := resolved.lastUpdate
            isFinished := resolved.isFinished }
        let events := sleepEvents ++
          [SyncEvent.fetch serverLibraryItemId, SyncEvent.push serverLibraryItemId payload]
        if env.pushResult serverLibraryItemId then
          ({ st with
              store := storeUpdate store1 progressId (fun q => { q with lastServerSync := some env.now })
              retryAttempts := removeRetry st.retryAttempts progressId }, events)
        else
          ({ st with
              store := store1
              retryAttempts := setRetry st.retryAttempts progressId (currentRetries + 1) }, events)

/-- `EbookSyncError`: the typed failures `manualSyncProgress` can throw. -/
inductive EbookSyncError where
  | noServerConfig
  | noNetwork
  | progressNotFound
  | syncFailed
  deriving Repr, DecidableEq

/-- `manualSyncProgress(for:)`: manual "sync progress to server" entry point.
Guards `Store.serverConfig`, network, and record existence, runs
`syncProgressItem`, then re-reads the record and reports whether
`lastServerSync` is set and not older than `lastUpdate`. -/
def manualSyncProgress (env : SyncEnv) (st : ManagerState) (localLibraryItemId : String) :
    Except EbookSyncError (ManagerState × List SyncEvent × Bool) :=
  match env.serverConfig with
  | none => .error .noServerConfig
  | some _ =>
    if env.networkAvailable = false then .error .noNetwork
    else
      match storeFindByLocalItem st.store localLibraryItemId with
      | none => .error .progressNotFound
      | some progress =>
        let r := syncProgressItem env st progress
        let result :=
          match storeFindByLocalItem r.1.store localLibraryItemId with
          | none => false
          | some updated =>
            match updated.lastServerSync with
            | none => false
            | some s => decide (s ≥ updated.lastUpdate)
        .ok (r.1, r.2, result)

/-- `hasPendingSync(for:)`: pending iff the record exists and
`lastServerSync == nil || lastUpdate > lastServerSync!`; absent record
reports `false`. -/
def hasPendingSync (store : List LocalMediaProgress) (localLibraryItemId : String) : Bool :=
  match storeFindByLocalItem store localLibraryItemId with
  | none => false
  | some progress =>
    match progress.lastServerSync with
    | none => true
    | some s => decide (progress.lastUpdate > s)

/-- `needsServerSync` from the `LocalMediaProgress` sync extension:
requires a non-nil `serverConnectionConfigId` matching the active server
config before the pending comparison. -/
def needsServerSync (serverConfig : Option ServerConnectionConfig)
    (p : LocalMediaProgress) : Bool :=
  match p.serverConnectionConfigId with
  | none => false
  | some scid =>
    match serverConfig with
    | none => false
    | some cfg =>
      if cfg.id ≠ scid then false
      else
        match p.lastServerSync with
        | none => true
        | some s => decide (p.lastUpdate > s)

/-- `getPendingProgressItems(for:)`: Realm filter
`serverConnectionConfigId == id AND ebookLocation != nil AND
ebookLocation != '' AND (lastServerSync == nil OR lastUpdate > lastServerSync)`. -/
def getPendingProgressItems (serverConfigId : String) (store : List LocalMediaProgress) :
    List LocalMediaProgress :=
  store.filter (fun q =>
    q.serverConnectionConfigId == some serverConfigId &&
    !(q.ebookLocation == none) && !(q.ebookLocation == some "") &&
    (match q.lastServerSync with
     | none => true
     | some s => decide (q.lastUpdate > s)))

/-- `getRecentlyUpdatedItems(for:)`: like the pending filter but restricted
to records updated within the last hour (and without the `!= ''` location
check). -/
def getRecentlyUpdatedItems (env : SyncEnv) (serverConfigId : String)
    (store : List LocalMediaProgress) : List LocalMediaProgress :=
  let oneHourAgo := env.now - 60 * 60 * 1000
  store.filter (fun q =>
    q.serverConnectionConfigId == some serverConfigId &&
    !(q.ebookLocation == none) &&
    decide (q.lastUpdate > oneHourAgo) &&
    (match q.lastServerSync with
     | none => true
     | some s => decide (q.lastUpdate > s)))

/-- One iteration of the `performSync` loop body. -/
def syncFoldStep (env : SyncEnv) (acc : ManagerState × List SyncEvent)
    (p : LocalMediaProgress) : ManagerState × List SyncEvent :=
  let r := syncProgressItem env acc.1 p
  (r.1, acc.2 ++ r.2)

/-- `performSync(serverConfig:)`: run `syncProgressItem` over every pending
item of the active server, threading the manager state and concatenating
the event traces. -/
def performSync (env : SyncEnv) (st : ManagerState) (serverConfigId : String) :
    ManagerState × List SyncEvent :=
  (getPendingProgressItems serverConfigId st.store).foldl (syncFoldStep env) (st, [])

/-- `syncPendingProgress()`: skip the whole pass while `isCurrentlySyncing`
is set, or without network, or without a server config; otherwise set the
flag, run `performSync`, and clear the flag. -/
def syncPendingProgress (env : SyncEnv) (st : ManagerState) :
    ManagerState × List SyncEvent :=
  if st.isCurrentlySyncing then (st, [])
  else if env.networkAvailable = false then (st, [])
  else
    match env.serverConfig with
    | none => (st, [])
    | some serverConfig =>
      let r := performSync env { st with isCurrentlySyncing := true } serverConfig.id
      ({ r.1 with isCurrentlySyncing := false }, r.2)

/-- The value `syncPendingProgress` hands back to its caller: the Swift
declaration is `public func syncPendingProgress()`, so the caller receives
nothing (`Void`) regardless of what the pass did. -/
def syncPendingProgressReturn (env : SyncEnv) (st : ManagerState) : Unit :=
  let _ := syncPendingProgress env st
  ()

/-- `syncProgressItemQuietly`: wraps `syncProgressItem` and reports success;
since `syncProgressItem` does not throw, the catch branch is unreachable and
the report is always `true`. -/
def syncProgressItemQuietly (env : SyncEnv) (st : ManagerState) (p : LocalMediaProgress) :
    ManagerState × List SyncEvent × Bool :=
  let r := syncProgressItem env st p
  (r.1, r.2, true)

/-- One iteration of the `performBackgroundSync` loop body (quiet sync plus
the `successCount` bookkeeping); the third component records which item was
attempted. -/
def backgroundFoldStep (env : SyncEnv)
    (acc : ManagerState × List SyncEvent × List String × Nat)
    (p : LocalMediaProgress) : ManagerState × List SyncEvent × List String × Nat :=
  let q := syncProgressItemQuietly env acc.1 p
  (q.1, acc.2.1 ++ q.2.1, acc.2.2.1 ++ [p.id],
   if q.2.2 then acc.2.2.2 + 1 else acc.2.2.2)

/-- `performBackgroundSync()`: guard config and network, then process only
the first 10 pending items (`pendingItems.prefix(10)`), counting quiet
successes; result is `successCount > 0`.  The returned list collects the ids
of the items actually handed to `syncProgressItemQuietly`. -/
def performBackgroundSync (env : SyncEnv) (st : ManagerState) :
    ManagerState × List SyncEvent × List String × Bool :=
  match env.serverConfig with
  | none => (st, [], [], false)
  | some serverConfig =>
    if env.networkAvailable = false then (st, [], [], false)
    else
      let pendingItems := getPendingProgressItems serverConfig.id st.store
      let r := (pendingItems.take 10).foldl (backgroundFoldStep env) (st, [], [], 0)
      (r.1, r.2.1, r.2.2.1, decide (r.2.2.2 > 0))

/-- One iteration of the `performQuickSync` loop body; the third component
records which item was attempted. -/
def quickFoldStep (env : SyncEnv)
    (acc : ManagerState × List SyncEvent × List String)
    (p : LocalMediaProgress) : ManagerState × List SyncEvent × List String :=
  let q := syncProgressItemQuietly env acc.1 p
  (q.1, acc.2.1 ++ q.2.1, acc.2.2 ++ [p.id])

/-- `performQuickSync()`: guard config and network, succeed immediately when
nothing is recent, otherwise process only the first 3 recently-updated items
(`recentItems.prefix(3)`) and report `true`.  The returned list collects the
ids of the items actually handed to `syncProgressItemQuietly`. -/
def performQuickSync (env : SyncEnv) (st : ManagerState) :
    ManagerState × List SyncEvent × List String × Bool :=
  match env.serverConfig with
  | none => (st, [], [], false)
  | some serverConfig =>
    if env.networkAvailable = false then (st, [], [], false)
    else
      let recentItems := getRecentlyUpdatedItems env serverConfig.id st.store
      if recentItems.isEmpty then (st, [], [], true)
      else
        let r := (recentItems.take 3).foldl (quickFoldStep env) (st, [], [])
        (r.1, r.2.1, r.2.2, true)

/-- Number of push events in a trace. -/
def countPush (events : List SyncEvent) : Nat :=
  (events.filter (fun e => match e with | .push _ _ => true | _ => false)).length

/-- Number of fetch events in a trace. -/
def countFetch (events : List SyncEvent) : Nat :=
  (events.filter (fun e => match e with | .fetch _ => true | _ => false)).length

/-- Trace of a manual sync run (empty on a typed failure). -/
def manualTrace (r : Except EbookSyncError (ManagerState × List SyncEvent × Bool)) :
    List SyncEvent :=
  match r with
  | .error _ => []
  | .ok x => x.2.1

/-- Whether a manual sync run ended in a typed failure. -/
def manualIsError (r : Except EbookSyncError (ManagerState × List SyncEvent × Bool)) :
    Bool :=
  match r with
  | .error _ => true
  | .ok _ => false

/-- Manager state after a manual sync run (the given state on a typed
failure, which leaves the state untouched). -/
def manualState (st : ManagerState)
    (r : Except EbookSyncError (ManagerState × List SyncEvent × Bool)) : ManagerState :=
  match r with
  | .error _ => st
  | .ok x => x.1

/-! ### Dictionary lemmas for the `retryAttempts` map -/

theorem getRetry_setRetry_self (m : List (String × Nat)) (k : String) (v : Nat) :
    getRetry (setRetry m k v) k = some v := by
  simp [getRetry, setRetry, List.find?]

theorem getRetry_removeRetry_self (m : List (String × Nat)) (k : String) :
    getRetry (removeRetry m k) k = none := by
  unfold getRetry removeRetry
  rw [Option.map_eq_none']
  rw [List.find?_eq_none]
  intro x hx
  have hpx := List.of_mem_filter hx
  simp only [bne_iff_ne, ne_eq] at hpx
  simp only [beq_iff_eq]
  exact hpx

theorem getRetry_removeRetry_ne (m : List (String × Nat)) (k k' : String)
    (h : k' ≠ k) : getRetry (removeRetry m k) k' = getRetry m k' := by
  induction m with
  | nil => rfl
  | cons a t ih =>
    by_cases hak : a.1 = k
    · have h1 : (a.1 != k) = false := by simp [hak]
      have h2 : (a.1 == k') = false := by
        simp only [beq_eq_false_iff_ne, ne_eq, hak]
        exact fun hh => h hh.symm
      simpa [getRetry, removeRetry, List.filter_cons, h1, List.find?, h2] using ih
    · have h1 : (a.1 != k) = true := by simp [hak]
      by_cases hak' : a.1 = k'
      · have h2 : (a.1 == k') = true := by simp [hak']
        simp [getRetry, removeRetry, List.filter_cons, h1, List.find?, h2]
      · have h2 : (a.1 == k') = false := by simp [hak']
        simpa [getRetry, removeRetry, List.filter_cons, h1, List.find?, h2] using ih

theorem getRetry_setRetry_ne (m : List (String × Nat)) (k k' : String) (v : Nat)
    (h : k' ≠ k) : getRetry (setRetry m k v) k' = getRetry m k' := by
  have h2 : (k == k') = false := by
    simp only [beq_eq_false_iff_ne, ne_eq]
    exact fun hh => h hh.symm
  simp only [setRetry, getRetry, List.find?, h2]
  exact getRetry_removeRetry_ne m k k' h

/-! ### Store lemmas -/

theorem find?_map_pred {α : Type} (pr : α → Bool) (g : α → α)
    (h : ∀ x, pr (g x) = pr x) :
    ∀ l : List α, (l.map g).find? pr = (l.find? pr).map g := by
  intro l
  induction l with
  | nil => rfl
  | cons a t ih =>
    by_cases hpa : pr a = true
    · have hga : pr (g a) = true := by rw [h]; exact hpa
      simp [List.find?, hga, hpa]
    · have hfa : pr a = false := by simpa using hpa
      have hga : pr (g a) = false := by rw [h]; exact hfa
      simp [List.find?, hga, hfa, ih]

theorem storeFindById_id (store : List LocalMediaProgress) (qid : String)
    (q : LocalMediaProgress) (h : storeFindById store qid = some q) : q.id = qid := by
  have := List.find?_some h
  simpa using this

theorem storeFindById_storeUpdate (store : List LocalMediaProgress) (pid qid : String)
    (f : LocalMediaProgress → LocalMediaProgress)
    (hf : ∀ x, x.id = pid → (f x).id = x.id) :
    storeFindById (storeUpdate store pid f) qid =
      (storeFindById store qid).map (fun q => if q.id == pid then f q else q) := by
  unfold storeFindById storeUpdate
  apply find?_map_pred
  intro x
  by_cases hx : x.id = pid
  · simp [hx, hf x hx]
  · simp [hx]

theorem storeFindById_storeUpdate_ne (store : List LocalMediaProgress) (pid qid : String)
    (f : LocalMediaProgress → LocalMediaProgress) (h : qid ≠ pid)
    (hf : ∀ x, x.id = pid → (f x).id = x.id) :
    storeFindById (storeUpdate store pid f) qid = storeFindById store qid := by
  rw [storeFindById_storeUpdate store pid qid f hf]
  cases hfind : storeFindById store qid with
  | none => rfl
  | some q =>
    have hid := storeFindById_id store qid q hfind
    have hqp : (q.id == pid) = false := by
      simp only [beq_eq_false_iff_ne, ne_eq, hid]
      exact h
    simp only [Option.map_some']
    rw [if_neg]
    simp [hqp]

theorem storeFindByLocalItem_storeUpdate (store : List LocalMediaProgress)
    (pid lid : String) (f : LocalMediaProgress → LocalMediaProgress)
    (hf : ∀ x, x.id = pid → (f x).localLibraryItemId = x.localLibraryItemId) :
    storeFindByLocalItem (storeUpdate store pid f) lid =
      (storeFindByLocalItem store lid).map (fun q => if q.id == pid then f q else q) := by
  unfold storeFindByLocalItem storeUpdate
  apply find?_map_pred
  intro x
  by_cases hx : x.id = pid
  · simp [hx, hf x hx]
  · simp [hx]

theorem mem_nodup_storeFindById (store : List LocalMediaProgress)
    (q : LocalMediaProgress) (hn : (store.map (fun r => r.id)).Nodup)
    (hq : q ∈ store) : storeFindById store q.id = some q := by
  induction store with
  | nil => cases hq
  | cons a t ih =>
    have hmap : List.map (fun r => r.id) (a :: t) = a.id :: List.map (fun r => r.id) t := rfl
    rw [hmap] at hn
    have hn' := List.nodup_cons.mp hn
    rcases List.mem_cons.mp hq with rfl | hqt
    · simp [storeFindById, List.find?]
    · have haq : a.id ≠ q.id := by
        intro hcontra
        exact hn'.1 (hcontra ▸ List.mem_map_of_mem (fun r => r.id) hqt)
      have h2 : (a.id == q.id) = false := by simp [haq]
      simp only [storeFindById, List.find?, h2]
      exact ih hn'.2 hqt

theorem resolveProgressConflicts_store_ne (env : SyncEnv)
    (store : List LocalMediaProgress) (p : LocalMediaProgress) (sid qid : String)
    (h : qid ≠ p.id) (store1 : List LocalMediaProgress) (resolved : LocalMediaProgress)
    (hr : resolveProgressConflicts env store p sid = .ok (store1, resolved)) :
    storeFindById store1 qid = storeFindById store qid := by
  unfold resolveProgressConflicts at hr
  cases hfetch : env.fetchProgress sid with
  | error e =>
    rw [hfetch] at hr
    exact Except.noConfusion hr
  | ok o =>
    rw [hfetch] at hr
    cases o with
    | none =>
      simp only [Except.ok.injEq, Prod.mk.injEq] at hr
      rw [← hr.1]
    | some sp =>
      cases hdec : resolveDecision p sp with
      | useLocal =>
        simp only [hdec, Except.ok.injEq, Prod.mk.injEq] at hr
        rw [← hr.1]
      | useServer =>
        simp only [hdec, Except.ok.injEq, Prod.mk.injEq] at hr
        rw [← hr.1]
        exact storeFindById_storeUpdate_ne store p.id qid _ h (fun x hx => hx.symm)

theorem syncProgressItem_store_ne (env : SyncEnv) (st : ManagerState)
    (p : LocalMediaProgress) (qid : String) (h : qid ≠ p.id) :
    storeFindById (syncProgressItem env st p).1.store qid = storeFindById st.store qid := by
  unfold syncProgressItem
  by_cases hmax : (getRetry st.retryAttempts p.id).getD 0 ≥ maxRetryAttempts
  · simp [hmax]
  · rw [if_neg hmax]
    cases hm : env.serverLibraryItemId p.localLibraryItemId with
    | none => simp
    | some sid =>
      cases hr : resolveProgressConflicts env st.store p sid with
      | error e => simp [hr]
      | ok pair =>
        obtain ⟨store1, resolved⟩ := pair
        have hstore1 := resolveProgressConflicts_store_ne env st.store p sid qid h store1 resolved hr
        simp only [hr]
        by_cases hpush : env.pushResult sid = true
        · simp only [hpush, if_true]
          rw [storeFindById_storeUpdate_ne store1 p.id qid
            (fun q => { q with lastServerSync := some env.now }) h (fun x _ => rfl)]
          exact hstore1
        · have hpush' : env.pushResult sid = false := by simpa using hpush
          simp only [hpush', Bool.false_eq_true, if_false]
          exact hstore1

/-! ### Branch characterizations of the per-item pipeline -/

theorem resolveProgressConflicts_none (env : SyncEnv) (store : List LocalMediaProgress)
    (p : LocalMediaProgress) (sid : String) (hf : env.fetchProgress sid = .ok none) :
    resolveProgressConflicts env store p sid = .ok (store, p) := by
  simp only [resolveProgressConflicts, hf]

theorem resolveProgressConflicts_useLocal (env : SyncEnv) (store : List LocalMediaProgress)
    (p : LocalMediaProgress) (sid : String) (sp : MediaProgress)
    (hf : env.fetchProgress sid = .ok (some sp)) (hd : resolveDecision p sp = .useLocal) :
    resolveProgressConflicts env store p sid = .ok (store, p) := by
  simp only [resolveProgressConflicts, hf, hd]

theorem resolveProgressConflicts_useServer (env : SyncEnv) (store : List LocalMediaProgress)
    (p : LocalMediaProgress) (sid : String) (sp : MediaProgress)
    (hf : env.fetchProgress sid = .ok (some sp)) (hd : resolveDecision p sp = .useServer) :
    resolveProgressConflicts env store p sid =
      .ok (storeUpdate store p.id (fun _ => updateFromServerMediaProgress p sp),
           updateFromServerMediaProgress p sp) := by
  simp only [resolveProgressConflicts, hf, hd]

theorem resolveProgressConflicts_fetchError (env : SyncEnv) (store : List LocalMediaProgress)
    (p : LocalMediaProgress) (sid : String) (hf : env.fetchProgress sid = .error ()) :
    resolveProgressConflicts env store p sid = .error () := by
  simp only [resolveProgressConflicts, hf]

theorem syncProgressItem_maxed (env : SyncEnv) (st : ManagerState) (p : LocalMediaProgress)
    (h : (getRetry st.retryAttempts p.id).getD 0 ≥ maxRetryAttempts) :
    syncProgressItem env st p =
      ({ st with retryAttempts := removeRetry st.retryAttempts p.id }, []) := by
  unfold syncProgressItem
  rw [if_pos h]

theorem syncProgressItem_noMapping (env : SyncEnv) (st : ManagerState) (p : LocalMediaProgress)
    (h : (getRetry st.retryAttempts p.id).getD 0 < maxRetryAttempts)
    (hm : env.serverLibraryItemId p.localLibraryItemId = none) :
    syncProgressItem env st p =
      (st, if (getRetry st.retryAttempts p.id).getD 0 > 0
           then [SyncEvent.slept (calculateRetryDelay ((getRetry st.retryAttempts p.id).getD 0))]
           else []) := by
  unfold syncProgressItem
  rw [if_neg (Nat.not_le.mpr h), hm]

theorem syncProgressItem_fetchError (env : SyncEnv) (st : ManagerState)
    (p : LocalMediaProgress) (sid : String)
    (h : (getRetry st.retryAttempts p.id).getD 0 < maxRetryAttempts)
    (hm : env.serverLibraryItemId p.localLibraryItemId = some sid)
    (hf : env.fetchProgress sid = .error ()) :
    syncProgressItem env st p =
      ({ st with retryAttempts :=
           setRetry st.retryAttempts p.id ((getRetry st.retryAttempts p.id).getD 0 + 1) },
       (if (getRetry st.retryAttempts p.id).getD 0 > 0
        then [SyncEvent.slept (calculateRetryDelay ((getRetry st.retryAttempts p.id).getD 0))]
        else []) ++ [SyncEvent.fetch sid]) := by
  unfold syncProgressItem
  rw [if_neg (Nat.not_le.mpr h)]
  simp only [hm, resolveProgressConflicts_fetchError env st.store p sid hf]

theorem syncProgressItem_resolved_pushTrue (env : SyncEnv) (st : ManagerState)
    (p : LocalMediaProgress) (sid : String) (store1 : List LocalMediaProgress)
    (resolved : LocalMediaProgress)
    (h : (getRetry st.retryAttempts p.id).getD 0 < maxRetryAttempts)
    (hm : env.serverLibraryItemId p.localLibraryItemId = some sid)
    (hr : resolveProgressConflicts env st.store p sid = .ok (store1, resolved))
    (hp : env.pushResult sid = true) :
    syncProgressItem env st p =
      ({ st with
          store := storeUpdate store1 p.id (fun q => { q with lastServerSync := some env.now })
          retryAttempts := removeRetry st.retryAttempts p.id },
       (if (getRetry st.retryAttempts p.id).getD 0 > 0
        then [SyncEvent.slept (calculateRetryDelay ((getRetry st.retryAttempts p.id).getD 0))]
        else []) ++
       [SyncEvent.fetch sid,
        SyncEvent.push sid
          { ebookLocation := resolved.ebookLocation.getD ""
            ebookProgress := resolved.ebookProgress
            lastUpdate := resolved.lastUpdate
            isFinished := resolved.isFinished }]) := by
  unfold syncProgressItem
  rw [if_neg (Nat.not_le.mpr h)]
  simp only [hm, hr, hp, if_true]

theorem syncProgressItem_resolved_pushFalse (env : SyncEnv) (st : ManagerState)
    (p : LocalMediaProgress) (sid : String) (store1 : List LocalMediaProgress)
    (resolved : LocalMediaProgress)
    (h : (getRetry st.retryAttempts p.id).getD 0 < maxRetryAttempts)
    (hm : env.serverLibraryItemId p.localLibraryItemId = some sid)
    (hr : resolveProgressConflicts env st.store p sid = .ok (store1, resolved))
    (hp : env.pushResult sid = false) :
    syncProgressItem env st p =
      ({ st with
          store := store1
          retryAttempts :=
            setRetry st.retryAttempts p.id ((getRetry st.retryAttempts p.id).getD 0 + 1) },
       (if (getRetry st.retryAttempts p.id).getD 0 > 0
        then [SyncEvent.slept (calculateRetryDelay ((getRetry st.retryAttempts p.id).getD 0))]
        else []) ++
       [SyncEvent.fetch sid,
        SyncEvent.push sid
          { ebookLocation := resolved.ebookLocation.getD ""
            ebookProgress := resolved.ebookProgress
            lastUpdate := resolved.lastUpdate
            isFinished := resolved.isFinished }]) := by
  unfold syncProgressItem
  rw [if_neg (Nat.not_le.mpr h)]
  simp only [hm, hr, hp, Bool.false_eq_true, if_false]

/-! ### Trace counting and fold lemmas -/

theorem countPush_append (a b : List SyncEvent) :
    countPush (a ++ b) = countPush a + countPush b := by
  simp [countPush, List.filter_append]

theorem countFetch_append (a b : List SyncEvent) :
    countFetch (a ++ b) = countFetch a + countFetch b := by
  simp [countFetch, List.filter_append]

theorem countPush_sleepIf (c : Prop) [Decidable c] (d : ℚ) :
    countPush (if c then [SyncEvent.slept d] else []) = 0 := by
  split <;> simp [countPush]

theorem countFetch_sleepIf (c : Prop) [Decidable c] (d : ℚ) :
    countFetch (if c then [SyncEvent.slept d] else []) = 0 := by
  split <;> simp [countFetch]

theorem foldBg_ids (env : SyncEnv) :
    ∀ (l : List LocalMediaProgress)
      (acc : ManagerState × List SyncEvent × List String × Nat),
      (l.foldl (backgroundFoldStep env) acc).2.2.1 = acc.2.2.1 ++ l.map (fun p => p.id) := by
  intro l
  induction l with
  | nil => intro acc; simp
  | cons a t ih =>
    intro acc
    rw [List.foldl_cons, ih]
    simp [backgroundFoldStep, syncProgressItemQuietly]

theorem foldQuick_ids (env : SyncEnv) :
    ∀ (l : List LocalMediaProgress)
      (acc : ManagerState × List SyncEvent × List String),
      (l.foldl (quickFoldStep env) acc).2.2 = acc.2.2 ++ l.map (fun p => p.id) := by
  intro l
  induction l with
  | nil => intro acc; simp
  | cons a t ih =>
    intro acc
    rw [List.foldl_cons, ih]
    simp [quickFoldStep, syncProgressItemQuietly]

theorem foldBg_store_ne (env : SyncEnv) (qid : String) :
    ∀ (l : List LocalMediaProgress)
      (acc : ManagerState × List SyncEvent × List String × Nat),
      (∀ p ∈ l, qid ≠ p.id) →
      storeFindById ((l.foldl (backgroundFoldStep env) acc).1).store qid =
        storeFindById acc.1.store qid := by
  intro l
  induction l with
  | nil => intro acc _; rfl
  | cons a t ih =>
    intro acc hl
    rw [List.foldl_cons, ih _ (fun p hp => hl p (List.mem_cons_of_mem a hp))]
    show storeFindById ((syncProgressItem env acc.1 a).1).store qid = _
    exact syncProgressItem_store_ne env acc.1 a qid (hl a (List.mem_cons_self a t))

/-! ## Concrete fixtures -/

/-- Fixture: a downloaded record of server "srv", updated but never synced. -/
def sampleLocal : LocalMediaProgress :=
  { id := "p1", localLibraryItemId := "l1", serverConnectionConfigId := some "srv"
    ebookLocation := some "cfi-local", ebookProgress := mkRat 1 2, lastUpdate := 500
    isFinished := false, lastServerSync := none }

/-- Fixture: server snapshot with the same fraction and the same timestamp as
`sampleLocal` but a different location and finished flag. -/
def tieServer : MediaProgress :=
  { libraryItemId := "item-1", ebookLocation := some "cfi-server", ebookProgress := mkRat 1 2
    lastUpdate := 500, isFinished := true }

/-- Fixture: environment whose fetch returns the tied snapshot. -/
def tieEnv : SyncEnv :=
  { serverConfig := some { id := "srv" }, networkAvailable := true
    serverLibraryItemId := fun _ => some "item-1"
    fetchProgress := fun _ => .ok (some tieServer)
    pushResult := fun _ => true, now := 1000 }

/-- Fixture: manager state holding `sampleLocal` with an armed retry count. -/
def armedState : ManagerState :=
  { retryAttempts := [("p1", 2)], isCurrentlySyncing := false, store := [sampleLocal] }

/-- Fixture: environment in which the local item has no remote mapping. -/
def unmappedEnv : SyncEnv :=
  { serverConfig := some { id := "srv" }, networkAvailable := true
    serverLibraryItemId := fun _ => none
    fetchProgress := fun _ => .ok none
    pushResult := fun _ => true, now := 0 }

/-- Fixture: a purely local record (null `serverConnectionConfigId`) that was
never synced. -/
def orphanRecord : LocalMediaProgress :=
  { id := "p5", localLibraryItemId := "l5", serverConnectionConfigId := none
    ebookLocation := some "cfi-5", ebookProgress := mkRat 1 4, lastUpdate := 800
    isFinished := false, lastServerSync := none }

/-! ## Claim C1 -/

/-- Claim C1 counterexample: on an exact tie (equal fractions, equal
timestamps) the resolution is `useServer`, and `resolveProgressConflicts`
overwrites the local record with the server snapshot — the local record is
not kept, contrary to the claim. -/
theorem C1_counterexample_tie_overwrites_local :
    sampleLocal.ebookProgress = tieServer.ebookProgress ∧
    sampleLocal.lastUpdate = tieServer.lastUpdate ∧
    resolveDecision sampleLocal tieServer = Resolution.useServer ∧
    resolveProgressConflicts tieEnv [sampleLocal] sampleLocal "item-1" =
      .ok ([updateFromServerMediaProgress sampleLocal tieServer],
           updateFromServerMediaProgress sampleLocal tieServer) ∧
    (updateFromServerMediaProgress sampleLocal tieServer).isFinished = true ∧
    (updateFromServerMediaProgress sampleLocal tieServer).ebookLocation = some "cfi-server" :=
  ⟨rfl, rfl, by decide, rfl, rfl, rfl⟩

/-- Claim C1 (amended): for every local/server pair with equal progress
fractions and exactly equal `lastUpdate` timestamps, conflict resolution
returns `useServer` — the server snapshot is applied over the local record
rather than the local record being kept. -/
theorem C1_tie_resolves_useServer (lp : LocalMediaProgress) (sp : MediaProgress)
    (h1 : lp.ebookProgress = sp.ebookProgress) (h2 : lp.lastUpdate = sp.lastUpdate) :
    resolveDecision lp sp = Resolution.useServer := by
  unfold resolveDecision
  rw [h1, h2]
  simp

/-- Claim C1 witness: the amended tie theorem at the concrete tie fixture. -/
theorem C1_tie_resolves_useServer_witness :
    resolveDecision sampleLocal tieServer = Resolution.useServer :=
  C1_tie_resolves_useServer sampleLocal tieServer rfl rfl

/-! ## Claim C5 -/

/-- Claim C5 counterexample: `hasPendingSync` reports a record with null
`serverConnectionConfigId` as pending (`true`) when it was never synced,
although the claim says such a record must be reported as not pending
regardless of its timestamps. -/
theorem C5_counterexample_hasPendingSync_null_server :
    orphanRecord.serverConnectionConfigId = none ∧
    hasPendingSync [orphanRecord] "l5" = true :=
  ⟨rfl, by decide⟩

/-- Claim C5 (amended): the pending-items listing never selects a record
whose `serverConnectionConfigId` is null (every listed record carries the
queried server id), but `hasPendingSync` does not consult
`serverConnectionConfigId` at all: rewriting that field on every record
leaves its verdict unchanged. -/
theorem C5_listing_excludes_null_server (scid : String)
    (store : List LocalMediaProgress) (q : LocalMediaProgress)
    (hq : q ∈ getPendingProgressItems scid store) (v : Option String) (lid : String) :
    q.serverConnectionConfigId = some scid ∧
    hasPendingSync (store.map (fun r => { r with serverConnectionConfigId := v })) lid =
      hasPendingSync store lid := by
  constructor
  · have hmem := List.mem_filter.mp hq
    have hpred := hmem.2
    simp only [Bool.and_eq_true, beq_iff_eq] at hpred
    exact hpred.1.1.1
  · unfold hasPendingSync storeFindByLocalItem
    have hmap := find?_map_pred (fun r : LocalMediaProgress => r.localLibraryItemId == lid)
      (fun r : LocalMediaProgress => { r with serverConnectionConfigId := v })
      (fun x => rfl) store
    rw [hmap]
    cases store.find? (fun q => q.localLibraryItemId == lid) with
    | none => rfl
    | some r => rfl

/-- Claim C5 witness: the amended statement at a concrete pending record. -/
theorem C5_listing_excludes_null_server_witness :
    sampleLocal.serverConnectionConfigId = some "srv" ∧
    hasPendingSync ([sampleLocal].map (fun r => { r with serverConnectionConfigId := none })) "l1" =
      hasPendingSync [sampleLocal] "l1" :=
  C5_listing_excludes_null_server "srv" [sampleLocal] sampleLocal (by decide) none "l1"

/-! ## Claim C7 -/

theorem syncProgressItem_head_slept (env : SyncEnv) (st : ManagerState)
    (p : LocalMediaProgress)
    (hlt : (getRetry st.retryAttempts p.id).getD 0 < maxRetryAttempts)
    (hpos : 0 < (getRetry st.retryAttempts p.id).getD 0) :
    ((syncProgressItem env st p).2).head? =
      some (SyncEvent.slept (calculateRetryDelay ((getRetry st.retryAttempts p.id).getD 0))) := by
  unfold syncProgressItem
  rw [if_neg (Nat.not_le.mpr hlt)]
  cases hm : env.serverLibraryItemId p.localLibraryItemId with
  | none => simp [hm, hpos]
  | some sid =>
    cases hr : resolveProgressConflicts env st.store p sid with
    | error e => simp [hm, hr, hpos]
    | ok pair =>
      obtain ⟨s1, r1⟩ := pair
      simp only [hm, hr]
      split
      · simp [hpos]
      · simp [hpos]

/-- Claim C7: for every retryCount n with 1 ≤ n < maxRetryAttempts, the delay
imposed before the next attempt equals baseRetryDelay * 2^n with a 2-second
base, and maxRetryAttempts is 5: the armed attempt's trace starts with
exactly that sleep. -/
theorem C7_exponential_backoff (n : Nat) (env : SyncEnv) (st : ManagerState)
    (p : LocalMediaProgress) (h1 : 1 ≤ n) (h2 : n < maxRetryAttempts)
    (hret : getRetry st.retryAttempts p.id = some n) :
    calculateRetryDelay n = baseRetryDelay * 2 ^ n ∧
    maxRetryAttempts = 5 ∧
    baseRetryDelay = 2 ∧
    ((syncProgressItem env st p).2).head? =
      some (SyncEvent.slept (baseRetryDelay * 2 ^ n)) := by
  have hcur : (getRetry st.retryAttempts p.id).getD 0 = n := by rw [hret]; rfl
  refine ⟨mul_comm _ _, rfl, rfl, ?_⟩
  have hh := syncProgressItem_head_slept env st p (by rw [hcur]; exact h2)
    (by rw [hcur]; exact h1)
  rw [hcur] at hh
  rw [hh]
  simp [calculateRetryDelay, mul_comm]

/-- Claim C7 witness: backoff at the concrete armed state with retryCount 2. -/
theorem C7_exponential_backoff_witness :
    calculateRetryDelay 2 = baseRetryDelay * 2 ^ 2 ∧
    maxRetryAttempts = 5 ∧
    baseRetryDelay = 2 ∧
    ((syncProgressItem tieEnv armedState sampleLocal).2).head? =
      some (SyncEvent.slept (baseRetryDelay * 2 ^ 2)) :=
  C7_exponential_backoff 2 tieEnv armedState sampleLocal (by decide) (by decide) rfl

/-! ## Claim C8 -/

/-- Claim C8: a sync attempt on a record whose local item has no remote
mapping performs no fetch and no push and never increments the retry
counter; below the retry cap the manager state is left completely
unchanged. -/
theorem C8_no_mapping_terminal (env : SyncEnv) (st : ManagerState)
    (p : LocalMediaProgress)
    (hm : env.serverLibraryItemId p.localLibraryItemId = none) :
    countPush (syncProgressItem env st p).2 = 0 ∧
    countFetch (syncProgressItem env st p).2 = 0 ∧
    (getRetry ((syncProgressItem env st p).1).retryAttempts p.id).getD 0 ≤
      (getRetry st.retryAttempts p.id).getD 0 ∧
    ((getRetry st.retryAttempts p.id).getD 0 < maxRetryAttempts →
      (syncProgressItem env st p).1 = st) := by
  by_cases hmax : (getRetry st.retryAttempts p.id).getD 0 ≥ maxRetryAttempts
  · rw [syncProgressItem_maxed env st p hmax]
    refine ⟨rfl, rfl, ?_, ?_⟩
    · show (getRetry (removeRetry st.retryAttempts p.id) p.id).getD 0 ≤ _
      rw [getRetry_removeRetry_self]
      exact Nat.zero_le _
    · intro hlt
      exact absurd hmax (Nat.not_le.mpr hlt)
  · have hlt := Nat.lt_of_not_le hmax
    rw [syncProgressItem_noMapping env st p hlt hm]
    exact ⟨countPush_sleepIf _ _, countFetch_sleepIf _ _, le_refl _, fun _ => rfl⟩

/-- Claim C8 witness: the no-mapping theorem at the concrete unmapped
environment and armed state. -/
theorem C8_no_mapping_terminal_witness :
    countPush (syncProgressItem unmappedEnv armedState sampleLocal).2 = 0 ∧
    countFetch (syncProgressItem unmappedEnv armedState sampleLocal).2 = 0 ∧
    (getRetry ((syncProgressItem unmappedEnv armedState sampleLocal).1).retryAttempts
      sampleLocal.id).getD 0 ≤
      (getRetry armedState.retryAttempts sampleLocal.id).getD 0 ∧
    ((getRetry armedState.retryAttempts sampleLocal.id).getD 0 < maxRetryAttempts →
      (syncProgressItem unmappedEnv armedState sampleLocal).1 = armedState) :=
  C8_no_mapping_terminal unmappedEnv armedState sampleLocal rfl

/-! ## Claim C2 -/

/-- Fixture: local record strictly behind the server. -/
def aheadLocal : LocalMediaProgress :=
  { id := "p2", localLibraryItemId := "l2", serverConnectionConfigId := some "srv"
    ebookLocation := some "cfi-a", ebookProgress := mkRat 1 5, lastUpdate := 400
    isFinished := false, lastServerSync := none }

/-- Fixture: server snapshot strictly ahead of `aheadLocal`. -/
def aheadServer : MediaProgress :=
  { libraryItemId := "item-2", ebookLocation := some "cfi-b", ebookProgress := mkRat 1 2
    lastUpdate := 900, isFinished := false }

/-- Fixture: environment whose fetch returns the ahead snapshot. -/
def aheadEnv : SyncEnv :=
  { serverConfig := some { id := "srv" }, networkAvailable := true
    serverLibraryItemId := fun _ => some "item-2"
    fetchProgress := fun _ => .ok (some aheadServer)
    pushResult := fun _ => true, now := 1000 }

/-- Fixture: manager state holding `aheadLocal` with no retry state. -/
def aheadState : ManagerState :=
  { retryAttempts := [], isCurrentlySyncing := false, store := [aheadLocal] }

/-- Claim C2 counterexample: with the server strictly ahead (resolution
`useServer`), the attempt still performs a transport push — the claim's "no
push is performed for that attempt" is false. -/
theorem C2_counterexample_useServer_pushes :
    resolveDecision aheadLocal aheadServer = Resolution.useServer ∧
    countPush (syncProgressItem aheadEnv aheadState aheadLocal).2 = 1 :=
  ⟨by decide, by decide⟩

/-- Claim C2 (amended): when the server progress fraction is strictly greater
than the local one, the pipeline applies the server's location, fraction and
finished flag onto the local record and, on push success, sets lastSyncedAt
to the current time — but it still pushes the resolved (now
server-congruent) progress to the server in the same attempt. -/
theorem C2_useServer_applies_and_pushes (env : SyncEnv) (st : ManagerState)
    (p : LocalMediaProgress) (sid : String) (sp : MediaProgress)
    (hlt : (getRetry st.retryAttempts p.id).getD 0 < maxRetryAttempts)
    (hm : env.serverLibraryItemId p.localLibraryItemId = some sid)
    (hf : env.fetchProgress sid = .ok (some sp))
    (hgt : sp.ebookProgress > p.ebookProgress)
    (hp : env.pushResult sid = true)
    (hfind : storeFindById st.store p.id = some p) :
    resolveDecision p sp = Resolution.useServer ∧
    storeFindById (syncProgressItem env st p).1.store p.id =
      some { p with
        ebookLocation := sp.ebookLocation
        ebookProgress := sp.ebookProgress
        isFinished := sp.isFinished
        lastUpdate := sp.lastUpdate
        lastServerSync := some env.now } ∧
    countPush (syncProgressItem env st p).2 = 1 ∧
    SyncEvent.push sid
      { ebookLocation := sp.ebookLocation.getD ""
        ebookProgress := sp.ebookProgress
        lastUpdate := sp.lastUpdate
        isFinished := sp.isFinished } ∈ (syncProgressItem env st p).2 := by
  have hd : resolveDecision p sp = Resolution.useServer := by
    unfold resolveDecision
    rw [if_neg (not_lt.mpr (le_of_lt hgt)), if_pos hgt]
  have hr := resolveProgressConflicts_useServer env st.store p sid sp hf hd
  have hchar := syncProgressItem_resolved_pushTrue env st p sid _ _ hlt hm hr hp
  refine ⟨hd, ?_, ?_, ?_⟩
  · rw [hchar]
    rw [storeFindById_storeUpdate
      (storeUpdate st.store p.id (fun _ => updateFromServerMediaProgress p sp)) p.id p.id
      (fun q => { q with lastServerSync := some env.now }) (fun x _ => rfl)]
    rw [storeFindById_storeUpdate st.store p.id p.id
      (fun _ => updateFromServerMediaProgress p sp) (fun x hx => hx.symm)]
    rw [hfind]
    simp [updateFromServerMediaProgress]
  · rw [hchar]
    rw [countPush_append, countPush_sleepIf]
    simp [countPush]
  · rw [hchar]
    simp [List.mem_append]
    exact ⟨rfl, rfl, rfl, rfl⟩

/-- Claim C2 witness: the amended theorem at the concrete ahead fixtures. -/
theorem C2_useServer_applies_and_pushes_witness :
    resolveDecision aheadLocal aheadServer = Resolution.useServer ∧
    storeFindById (syncProgressItem aheadEnv aheadState aheadLocal).1.store aheadLocal.id =
      some { aheadLocal with
        ebookLocation := aheadServer.ebookLocation
        ebookProgress := aheadServer.ebookProgress
        isFinished := aheadServer.isFinished
        lastUpdate := aheadServer.lastUpdate
        lastServerSync := some aheadEnv.now } ∧
    countPush (syncProgressItem aheadEnv aheadState aheadLocal).2 = 1 ∧
    SyncEvent.push "item-2"
      { ebookLocation := aheadServer.ebookLocation.getD ""
        ebookProgress := aheadServer.ebookProgress
        lastUpdate := aheadServer.lastUpdate
        isFinished := aheadServer.isFinished } ∈
      (syncProgressItem aheadEnv aheadState aheadLocal).2 :=
  C2_useServer_applies_and_pushes aheadEnv aheadState aheadLocal "item-2" aheadServer
    (by decide) rfl rfl (by decide) rfl (by decide)

/-! ## Claim C3 -/

/-- Fixture: a record downloaded from server "server-A". -/
def wrongServerRecord : LocalMediaProgress :=
  { id := "p3", localLibraryItemId := "l3", serverConnectionConfigId := some "server-A"
    ebookLocation := some "cfi-3", ebookProgress := mkRat 3 10, lastUpdate := 500
    isFinished := false, lastServerSync := none }

/-- Fixture: environment whose active connection is "server-B". -/
def wrongServerEnv : SyncEnv :=
  { serverConfig := some { id := "server-B" }, networkAvailable := true
    serverLibraryItemId := fun _ => some "item-3"
    fetchProgress := fun _ => .ok none
    pushResult := fun _ => true, now := 2000 }

/-- Fixture: manager state holding the wrong-server record. -/
def wrongServerState : ManagerState :=
  { retryAttempts := [], isCurrentlySyncing := false, store := [wrongServerRecord] }

/-- Claim C3: a record downloaded from server "A" while the active connection
is "B" is NOT rejected by `manualSyncProgress`: no typed error is thrown (the
`EbookSyncError` type has no OffServer case at all) and the run performs a
fetch and a push against the active server. -/
theorem C3_wrong_server_not_rejected :
    wrongServerRecord.serverConnectionConfigId = some "server-A" ∧
    wrongServerEnv.serverConfig = some { id := "server-B" } ∧
    manualIsError (manualSyncProgress wrongServerEnv wrongServerState "l3") = false ∧
    countFetch (manualTrace (manualSyncProgress wrongServerEnv wrongServerState "l3")) = 1 ∧
    countPush (manualTrace (manualSyncProgress wrongServerEnv wrongServerState "l3")) = 1 :=
  ⟨rfl, rfl, by decide, by decide, by decide⟩

/-! ## Claim C4 -/

theorem manualSyncProgress_run (env : SyncEnv) (st : ManagerState) (lid : String)
    (cfg : ServerConnectionConfig) (p : LocalMediaProgress)
    (hcfg : env.serverConfig = some cfg) (hnet : env.networkAvailable = true)
    (hfind : storeFindByLocalItem st.store lid = some p) :
    manualSyncProgress env st lid =
      .ok ((syncProgressItem env st p).1, (syncProgressItem env st p).2,
        match storeFindByLocalItem ((syncProgressItem env st p).1).store lid with
        | none => false
        | some updated =>
          match updated.lastServerSync with
          | none => false
          | some s => decide (s ≥ updated.lastUpdate)) := by
  unfold manualSyncProgress
  rw [hcfg]
  rw [if_neg (by simp [hnet])]
  simp only [hfind]

/-- Fixture: record for the duplicate-trigger scenario. -/
def dupRecord : LocalMediaProgress :=
  { id := "p4", localLibraryItemId := "l4", serverConnectionConfigId := some "srv"
    ebookLocation := some "cfi-4", ebookProgress := mkRat 1 4, lastUpdate := 600
    isFinished := false, lastServerSync := none }

/-- Fixture: environment for the duplicate-trigger scenario. -/
def dupEnv : SyncEnv :=
  { serverConfig := some { id := "srv" }, networkAvailable := true
    serverLibraryItemId := fun _ => some "item-4"
    fetchProgress := fun _ => .ok none
    pushResult := fun _ => true, now := 700 }

/-- Fixture: manager state holding `dupRecord` with no retry state. -/
def dupState : ManagerState :=
  { retryAttempts := [], isCurrentlySyncing := false, store := [dupRecord] }

/-- Claim C4 counterexample: two manual sync calls for the same record id
both proceed to a transport push — neither call is a skipped no-op, so
"exactly one proceeds to a transport push and the other is skipped" is
false. -/
theorem C4_counterexample_two_calls_two_pushes :
    manualIsError (manualSyncProgress dupEnv dupState "l4") = false ∧
    countPush (manualTrace (manualSyncProgress dupEnv dupState "l4")) = 1 ∧
    manualIsError (manualSyncProgress dupEnv
      (manualState dupState (manualSyncProgress dupEnv dupState "l4")) "l4") = false ∧
    countPush (manualTrace (manualSyncProgress dupEnv
      (manualState dupState (manualSyncProgress dupEnv dupState "l4")) "l4")) = 1 :=
  ⟨by decide, by decide, by decide, by decide⟩

/-- Claim C4 (amended): the only in-flight guard is the manager-wide
`isCurrentlySyncing` flag, which skips a whole `syncPendingProgress` pass
while one runs; there is no per-record guard, so two manual sync calls
targeting the same record id each perform a transport push. -/
theorem C4_no_per_record_inflight_guard (env : SyncEnv) (st : ManagerState)
    (lid : String) (cfg : ServerConnectionConfig) (p : LocalMediaProgress) (sid : String)
    (hcfg : env.serverConfig = some cfg)
    (hnet : env.networkAvailable = true)
    (hfind : storeFindByLocalItem st.store lid = some p)
    (hret : getRetry st.retryAttempts p.id = none)
    (hm : env.serverLibraryItemId p.localLibraryItemId = some sid)
    (hf : env.fetchProgress sid = .ok none)
    (hp : env.pushResult sid = true) :
    (st.isCurrentlySyncing = true → syncPendingProgress env st = (st, [])) ∧
    (∃ st1 evs1 b1, manualSyncProgress env st lid = .ok (st1, evs1, b1) ∧
      countPush evs1 = 1 ∧
      ∃ st2 evs2 b2, manualSyncProgress env st1 lid = .ok (st2, evs2, b2) ∧
        countPush evs2 = 1) := by
  constructor
  · intro hbusy
    unfold syncPendingProgress
    rw [if_pos hbusy]
  · have hcur : (getRetry st.retryAttempts p.id).getD 0 = 0 := by rw [hret]; rfl
    have hlt : (getRetry st.retryAttempts p.id).getD 0 < maxRetryAttempts := by
      rw [hcur]; decide
    have hr1 := resolveProgressConflicts_none env st.store p sid hf
    have hchar1 := syncProgressItem_resolved_pushTrue env st p sid st.store p hlt hm hr1 hp
    have hrun1 := manualSyncProgress_run env st lid cfg p hcfg hnet hfind
    refine ⟨(syncProgressItem env st p).1, (syncProgressItem env st p).2, _, hrun1, ?_, ?_⟩
    · rw [hchar1]
      rw [countPush_append, countPush_sleepIf]
      simp [countPush]
    · have hfind2 : storeFindByLocalItem ((syncProgressItem env st p).1).store lid =
          some { p with lastServerSync := some env.now } := by
        rw [hchar1]
        show storeFindByLocalItem (storeUpdate st.store p.id
          (fun q => { q with lastServerSync := some env.now })) lid = _
        rw [storeFindByLocalItem_storeUpdate st.store p.id lid
          (fun q => { q with lastServerSync := some env.now }) (fun x _ => rfl)]
        rw [hfind]
        simp
      have hret2 : getRetry ((syncProgressItem env st p).1).retryAttempts p.id = none := by
        rw [hchar1]
        exact getRetry_removeRetry_self st.retryAttempts p.id
      have hcur2 : (getRetry ((syncProgressItem env st p).1).retryAttempts
          ({ p with lastServerSync := some env.now } : LocalMediaProgress).id).getD 0 = 0 := by
        show (getRetry ((syncProgressItem env st p).1).retryAttempts p.id).getD 0 = 0
        rw [hret2]
        rfl
      have hlt2 : (getRetry ((syncProgressItem env st p).1).retryAttempts
          ({ p with lastServerSync := some env.now } : LocalMediaProgress).id).getD 0 <
          maxRetryAttempts := by
        rw [hcur2]; decide
      have hm2 : env.serverLibraryItemId
          ({ p with lastServerSync := some env.now } : LocalMediaProgress).localLibraryItemId =
          some sid := hm
      have hr2 := resolveProgressConflicts_none env ((syncProgressItem env st p).1).store
        { p with lastServerSync := some env.now } sid hf
      have hchar2 := syncProgressItem_resolved_pushTrue env ((syncProgressItem env st p).1)
        { p with lastServerSync := some env.now } sid ((syncProgressItem env st p).1).store
        { p with lastServerSync := some env.now } hlt2 hm2 hr2 hp
      have hrun2 := manualSyncProgress_run env ((syncProgressItem env st p).1) lid cfg
        { p with lastServerSync := some env.now } hcfg hnet hfind2
      refine ⟨_, _, _, hrun2, ?_⟩
      rw [hchar2]
      rw [countPush_append, countPush_sleepIf]
      simp [countPush]

/-- Claim C4 witness: the amended theorem at the duplicate-trigger fixtures. -/
theorem C4_no_per_record_inflight_guard_witness :
    (dupState.isCurrentlySyncing = true →
      syncPendingProgress dupEnv dupState = (dupState, [])) ∧
    (∃ st1 evs1 b1, manualSyncProgress dupEnv dupState "l4" = .ok (st1, evs1, b1) ∧
      countPush evs1 = 1 ∧
      ∃ st2 evs2 b2, manualSyncProgress dupEnv st1 "l4" = .ok (st2, evs2, b2) ∧
        countPush evs2 = 1) :=
  C4_no_per_record_inflight_guard dupEnv dupState "l4" { id := "srv" } dupRecord "item-4"
    rfl rfl rfl rfl rfl rfl rfl

/-! ## Claim C6 -/

theorem syncStep_fail (env : SyncEnv) (st : ManagerState) (p : LocalMediaProgress)
    (sid : String)
    (hm : env.serverLibraryItemId p.localLibraryItemId = some sid)
    (hf : env.fetchProgress sid = .error ())
    (hlt : (getRetry st.retryAttempts p.id).getD 0 < maxRetryAttempts) :
    (syncProgressItem env st p).1 =
      { st with retryAttempts :=
          setRetry st.retryAttempts p.id ((getRetry st.retryAttempts p.id).getD 0 + 1) } := by
  rw [syncProgressItem_fetchError env st p sid hlt hm hf]

/-- Fixture: environment whose fetch always fails with a transport error. -/
def failEnv : SyncEnv :=
  { serverConfig := some { id := "srv" }, networkAvailable := true
    serverLibraryItemId := fun _ => some "item-6"
    fetchProgress := fun _ => .error ()
    pushResult := fun _ => false, now := 0 }

/-- Fixture: manager state holding `sampleLocal` with empty retry state. -/
def cleanState : ManagerState :=
  { retryAttempts := [], isCurrentlySyncing := false, store := [sampleLocal] }

set_option maxHeartbeats 2000000 in
/-- Claim C6: after maxRetryAttempts (5) consecutive transport failures the
retry count reaches 5; the next (6th) trigger produces no transport attempt
(empty trace) and removes the retry state; the trigger after that attempts
fresh with retryCount starting at 0 (no backoff sleep, a fetch is issued,
and a failure sets the count to 1). -/
theorem C6_retry_exhaustion_and_reset (env : SyncEnv) (st : ManagerState)
    (p : LocalMediaProgress) (sid : String)
    (hret : getRetry st.retryAttempts p.id = none)
    (hm : env.serverLibraryItemId p.localLibraryItemId = some sid)
    (hf : env.fetchProgress sid = .error ()) :
    getRetry (((fun s => (syncProgressItem env s p).1)^[maxRetryAttempts]) st).retryAttempts
      p.id = some maxRetryAttempts ∧
    (syncProgressItem env
      (((fun s => (syncProgressItem env s p).1)^[maxRetryAttempts]) st) p).2 = [] ∧
    getRetry (((fun s => (syncProgressItem env s p).1)^[maxRetryAttempts + 1]) st).retryAttempts
      p.id = none ∧
    (syncProgressItem env
      (((fun s => (syncProgressItem env s p).1)^[maxRetryAttempts + 1]) st) p).2 =
      [SyncEvent.fetch sid] ∧
    getRetry (((fun s => (syncProgressItem env s p).1)^[maxRetryAttempts + 2]) st).retryAttempts
      p.id = some 1 := by
  set next := fun s => (syncProgressItem env s p).1 with hnext
  have stepRetry : ∀ (s : ManagerState) (k : Nat),
      (getRetry s.retryAttempts p.id).getD 0 = k → k < maxRetryAttempts →
      getRetry ((next s).retryAttempts) p.id = some (k + 1) := by
    intro s k hk hklt
    have hstep := syncStep_fail env s p sid hm hf (by rw [hk]; exact hklt)
    show getRetry ((syncProgressItem env s p).1).retryAttempts p.id = some (k + 1)
    rw [hstep]
    show getRetry (setRetry s.retryAttempts p.id
      ((getRetry s.retryAttempts p.id).getD 0 + 1)) p.id = some (k + 1)
    rw [hk, getRetry_setRetry_self]
  have g0 : (getRetry st.retryAttempts p.id).getD 0 = 0 := by rw [hret]; rfl
  have i1 : (next^[1]) st = next st := rfl
  have i2 : (next^[2]) st = next ((next^[1]) st) := Function.iterate_succ_apply' next 1 st
  have i3 : (next^[3]) st = next ((next^[2]) st) := Function.iterate_succ_apply' next 2 st
  have i4 : (next^[4]) st = next ((next^[3]) st) := Function.iterate_succ_apply' next 3 st
  have i5 : (next^[5]) st = next ((next^[4]) st) := Function.iterate_succ_apply' next 4 st
  have i6 : (next^[6]) st = next ((next^[5]) st) := Function.iterate_succ_apply' next 5 st
  have i7 : (next^[7]) st = next ((next^[6]) st) := Function.iterate_succ_apply' next 6 st
  have g1 : getRetry ((next^[1]) st).retryAttempts p.id = some 1 := by
    rw [i1]; exact stepRetry st 0 g0 (by decide)
  have g2 : getRetry ((next^[2]) st).retryAttempts p.id = some 2 := by
    rw [i2]; exact stepRetry _ 1 (by rw [g1]; rfl) (by decide)
  have g3 : getRetry ((next^[3]) st).retryAttempts p.id = some 3 := by
    rw [i3]; exact stepRetry _ 2 (by rw [g2]; rfl) (by decide)
  have g4 : getRetry ((next^[4]) st).retryAttempts p.id = some 4 := by
    rw [i4]; exact stepRetry _ 3 (by rw [g3]; rfl) (by decide)
  have g5 : getRetry ((next^[5]) st).retryAttempts p.id = some 5 := by
    rw [i5]; exact stepRetry _ 4 (by rw [g4]; rfl) (by decide)
  have hmaxed : (getRetry ((next^[5]) st).retryAttempts p.id).getD 0 ≥ maxRetryAttempts := by
    rw [g5]; decide
  have e6 := syncProgressItem_maxed env ((next^[5]) st) p hmaxed
  have g6 : getRetry ((next^[6]) st).retryAttempts p.id = none := by
    rw [i6]
    show getRetry ((syncProgressItem env ((next^[5]) st) p).1).retryAttempts p.id = none
    rw [e6]
    exact getRetry_removeRetry_self _ _
  have h6 : (getRetry ((next^[6]) st).retryAttempts p.id).getD 0 = 0 := by rw [g6]; rfl
  refine ⟨g5, ?_, g6, ?_, ?_⟩
  · show (syncProgressItem env ((next^[5]) st) p).2 = []
    rw [e6]
  · show (syncProgressItem env ((next^[6]) st) p).2 = [SyncEvent.fetch sid]
    rw [syncProgressItem_fetchError env ((next^[6]) st) p sid (by rw [h6]; decide) hm hf]
    rw [h6]
    rw [if_neg (by decide : ¬ ((0 : Nat) > 0))]
    rw [List.nil_append]
  · show getRetry ((next^[7]) st).retryAttempts p.id = some 1
    rw [i7]
    exact stepRetry ((next^[6]) st) 0 h6 (by decide)

/-- Claim C6 witness: the exhaustion-and-reset theorem at the failing
environment and a clean state. -/
theorem C6_retry_exhaustion_and_reset_witness :
    getRetry (((fun s => (syncProgressItem failEnv s sampleLocal).1)^[maxRetryAttempts])
      cleanState).retryAttempts sampleLocal.id = some maxRetryAttempts ∧
    (syncProgressItem failEnv
      (((fun s => (syncProgressItem failEnv s sampleLocal).1)^[maxRetryAttempts]) cleanState)
      sampleLocal).2 = [] ∧
    getRetry (((fun s => (syncProgressItem failEnv s sampleLocal).1)^[maxRetryAttempts + 1])
      cleanState).retryAttempts sampleLocal.id = none ∧
    (syncProgressItem failEnv
      (((fun s => (syncProgressItem failEnv s sampleLocal).1)^[maxRetryAttempts + 1]) cleanState)
      sampleLocal).2 = [SyncEvent.fetch "item-6"] ∧
    getRetry (((fun s => (syncProgressItem failEnv s sampleLocal).1)^[maxRetryAttempts + 2])
      cleanState).retryAttempts sampleLocal.id = some 1 :=
  C6_retry_exhaustion_and_reset failEnv cleanState sampleLocal "item-6" rfl rfl rfl

/-! ## Claim C9 -/

/-- Fixture: manager state with an empty store. -/
def emptyState : ManagerState :=
  { retryAttempts := [], isCurrentlySyncing := false, store := [] }

/-- Claim C9 counterexample: `syncPendingProgress` hands its caller no counts:
its return value (`Void`) is identical across a pass that attempted nothing
and a pass that attempted, pushed and succeeded one item. -/
theorem C9_counterexample_void_return :
    syncPendingProgressReturn dupEnv emptyState = syncPendingProgressReturn dupEnv dupState ∧
    (syncPendingProgress dupEnv emptyState).2.length = 0 ∧
    (syncPendingProgress dupEnv dupState).2.length = 2 ∧
    countPush (syncPendingProgress dupEnv dupState).2 = 1 :=
  ⟨rfl, by decide, by decide, by decide⟩

/-- Claim C9 (amended): a pass over two pending items absorbs the first
item's transport failure — the second item is still fetched, pushed and
marked synced, the first item's retry count is recorded, and the pass
terminates normally (it returns no counts). -/
theorem C9_failures_absorbed (env : SyncEnv) (st : ManagerState)
    (cfg : ServerConnectionConfig) (p1 p2 : LocalMediaProgress) (sid1 sid2 : String)
    (hbusy : st.isCurrentlySyncing = false)
    (hnet : env.networkAvailable = true)
    (hcfg : env.serverConfig = some cfg)
    (hpend : getPendingProgressItems cfg.id st.store = [p1, p2])
    (hret : st.retryAttempts = [])
    (hne : p1.id ≠ p2.id)
    (hm1 : env.serverLibraryItemId p1.localLibraryItemId = some sid1)
    (hf1 : env.fetchProgress sid1 = .error ())
    (hm2 : env.serverLibraryItemId p2.localLibraryItemId = some sid2)
    (hf2 : env.fetchProgress sid2 = .ok none)
    (hp2 : env.pushResult sid2 = true)
    (hfind2 : storeFindById st.store p2.id = some p2) :
    getRetry (syncPendingProgress env st).1.retryAttempts p1.id = some 1 ∧
    storeFindById (syncPendingProgress env st).1.store p2.id =
      some { p2 with lastServerSync := some env.now } ∧
    countPush (syncPendingProgress env st).2 = 1 ∧
    countFetch (syncPendingProgress env st).2 = 2 := by
  set st' := { st with isCurrentlySyncing := true } with hstp
  have hpend' : getPendingProgressItems cfg.id st'.store = [p1, p2] := hpend
  have hcur1 : (getRetry st'.retryAttempts p1.id).getD 0 = 0 := by
    show (getRetry st.retryAttempts p1.id).getD 0 = 0
    rw [hret]; rfl
  have hchar1 := syncProgressItem_fetchError env st' p1 sid1
    (by rw [hcur1]; decide) hm1 hf1
  rw [hcur1] at hchar1
  norm_num at hchar1
  have hcur2 : (getRetry
      ({ st' with retryAttempts := setRetry st'.retryAttempts p1.id 1 } :
        ManagerState).retryAttempts p2.id).getD 0 = 0 := by
    show (getRetry (setRetry st'.retryAttempts p1.id 1) p2.id).getD 0 = 0
    rw [getRetry_setRetry_ne st'.retryAttempts p1.id p2.id 1 (Ne.symm hne)]
    show (getRetry st.retryAttempts p2.id).getD 0 = 0
    rw [hret]; rfl
  have hr2 := resolveProgressConflicts_none env st.store p2 sid2 hf2
  have hchar2 := syncProgressItem_resolved_pushTrue env
    { st' with retryAttempts := setRetry st'.retryAttempts p1.id 1 } p2 sid2 st.store p2
    (by rw [hcur2]; decide) hm2 hr2 hp2
  rw [hcur2] at hchar2
  norm_num at hchar2
  have hfull : syncPendingProgress env st =
      ({ (syncProgressItem env ((syncProgressItem env st' p1).1) p2).1 with
          isCurrentlySyncing := false },
       ([] ++ (syncProgressItem env st' p1).2) ++
         (syncProgressItem env ((syncProgressItem env st' p1).1) p2).2) := by
    unfold syncPendingProgress
    rw [if_neg (by simp [hbusy])]
    rw [if_neg (by simp [hnet])]
    rw [hcfg]
    show ({ (performSync env st' cfg.id).1 with isCurrentlySyncing := false },
      (performSync env st' cfg.id).2) = _
    have hfold : performSync env st' cfg.id =
        syncFoldStep env (syncFoldStep env (st', []) p1) p2 := by
      unfold performSync
      rw [hpend']
      rfl
    rw [hfold]
    rfl
  refine ⟨?_, ?_, ?_, ?_⟩
  · rw [hfull]
    show getRetry (syncProgressItem env ((syncProgressItem env st' p1).1) p2).1.retryAttempts
      p1.id = some 1
    simp only [hchar1, hchar2]
    rw [getRetry_removeRetry_ne _ p2.id p1.id hne, getRetry_setRetry_self]
  · rw [hfull]
    show storeFindById
      (syncProgressItem env ((syncProgressItem env st' p1).1) p2).1.store p2.id = _
    simp only [hchar1, hchar2]
    rw [storeFindById_storeUpdate st.store p2.id p2.id
      (fun q => { q with lastServerSync := some env.now }) (fun x _ => rfl)]
    rw [hfind2]
    simp
  · rw [hfull]
    simp only [hchar1, hchar2]
    simp [countPush]
  · rw [hfull]
    simp only [hchar1, hchar2]
    simp [countFetch]

/-- Fixture: second pending record for the absorption scenario. -/
def absRecord2 : LocalMediaProgress :=
  { id := "p2b", localLibraryItemId := "l2b", serverConnectionConfigId := some "srv"
    ebookLocation := some "cfi-2b", ebookProgress := mkRat 2 5, lastUpdate := 650
    isFinished := false, lastServerSync := none }

/-- Fixture: environment whose transport fails for the first item's mapping
and succeeds for the second. -/
def absEnv : SyncEnv :=
  { serverConfig := some { id := "srv" }, networkAvailable := true
    serverLibraryItemId := fun lid => if lid == "l1" then some "item-A" else some "item-B"
    fetchProgress := fun sid => if sid == "item-A" then .error () else .ok none
    pushResult := fun _ => true, now := 900 }

/-- Fixture: manager state with the two pending records of the absorption
scenario. -/
def absState : ManagerState :=
  { retryAttempts := [], isCurrentlySyncing := false, store := [sampleLocal, absRecord2] }

/-- Claim C9 witness: the absorption theorem at the two-record fixture. -/
theorem C9_failures_absorbed_witness :
    getRetry (syncPendingProgress absEnv absState).1.retryAttempts sampleLocal.id = some 1 ∧
    storeFindById (syncPendingProgress absEnv absState).1.store absRecord2.id =
      some { absRecord2 with lastServerSync := some absEnv.now } ∧
    countPush (syncPendingProgress absEnv absState).2 = 1 ∧
    countFetch (syncPendingProgress absEnv absState).2 = 2 :=
  C9_failures_absorbed absEnv absState { id := "srv" } sampleLocal absRecord2
    "item-A" "item-B" rfl rfl rfl (by decide) rfl (by decide) rfl rfl rfl rfl rfl
    (by decide)

/-! ## Claim C10 -/

theorem performBackgroundSync_ids (env : SyncEnv) (st : ManagerState)
    (cfg : ServerConnectionConfig) (hc : env.serverConfig = some cfg)
    (hn : env.networkAvailable = true) :
    (performBackgroundSync env st).2.2.1 =
      ((getPendingProgressItems cfg.id st.store).take 10).map (fun p => p.id) := by
  unfold performBackgroundSync
  simp only [hc]
  rw [if_neg (by simp [hn])]
  show (((getPendingProgressItems cfg.id st.store).take 10).foldl
    (backgroundFoldStep env) (st, [], [], 0)).2.2.1 = _
  rw [foldBg_ids env ((getPendingProgressItems cfg.id st.store).take 10) (st, [], [], 0)]
  rw [List.nil_append]

theorem performQuickSync_ids (env : SyncEnv) (st : ManagerState)
    (cfg : ServerConnectionConfig) (hc : env.serverConfig = some cfg)
    (hn : env.networkAvailable = true) :
    (performQuickSync env st).2.2.1 =
      ((getRecentlyUpdatedItems env cfg.id st.store).take 3).map (fun p => p.id) := by
  unfold performQuickSync
  simp only [hc]
  rw [if_neg (by simp [hn])]
  by_cases he : (getRecentlyUpdatedItems env cfg.id st.store).isEmpty = true
  · rw [if_pos he]
    have hnil : getRecentlyUpdatedItems env cfg.id st.store = [] := by
      simpa using he
    rw [hnil]
    rfl
  · rw [if_neg he]
    show (((getRecentlyUpdatedItems env cfg.id st.store).take 3).foldl
      (quickFoldStep env) (st, [], [])).2.2 = _
    rw [foldQuick_ids env ((getRecentlyUpdatedItems env cfg.id st.store).take 3) (st, [], [])]
    rw [List.nil_append]

/-- Claim C10: a background-processing pass attempts at most 10 pending
records and a background-refresh quick pass at most 3; a pending record
beyond the cap is not attempted, and its store entry is untouched by the
pass (it remains pending for a later trigger). -/
theorem C10_background_caps (env : SyncEnv) (st : ManagerState) :
    (performBackgroundSync env st).2.2.1.length ≤ 10 ∧
    (performQuickSync env st).2.2.1.length ≤ 3 ∧
    (∀ cfg q, env.serverConfig = some cfg → env.networkAvailable = true →
      (st.store.map (fun r => r.id)).Nodup →
      q ∈ (getPendingProgressItems cfg.id st.store).drop 10 →
      q.id ∉ (performBackgroundSync env st).2.2.1 ∧
      storeFindById (performBackgroundSync env st).1.store q.id = some q) := by
  refine ⟨?_, ?_, ?_⟩
  · cases hc : env.serverConfig with
    | none =>
      unfold performBackgroundSync
      simp only [hc]
      simp
    | some cfg =>
      cases hnet : env.networkAvailable with
      | false =>
        unfold performBackgroundSync
        simp only [hc]
        rw [if_pos hnet]
        simp
      | true =>
        rw [performBackgroundSync_ids env st cfg hc hnet]
        rw [List.length_map, List.length_take]
        exact min_le_left _ _
  · cases hc : env.serverConfig with
    | none =>
      unfold performQuickSync
      simp only [hc]
      simp
    | some cfg =>
      cases hnet : env.networkAvailable with
      | false =>
        unfold performQuickSync
        simp only [hc]
        rw [if_pos hnet]
        simp
      | true =>
        rw [performQuickSync_ids env st cfg hc hnet]
        rw [List.length_map, List.length_take]
        exact min_le_left _ _
  · intro cfg q hc hnet hnodup hdrop
    have hsub : (getPendingProgressItems cfg.id st.store).Sublist st.store := by
      unfold getPendingProgressItems
      exact List.filter_sublist _
    have hnodup_p : (((getPendingProgressItems cfg.id st.store)).map (fun r => r.id)).Nodup :=
      hnodup.sublist (hsub.map (fun r => r.id))
    have hdisj : List.Disjoint
        (((getPendingProgressItems cfg.id st.store).map (fun r => r.id)).take 10)
        (((getPendingProgressItems cfg.id st.store).map (fun r => r.id)).drop 10) :=
      List.disjoint_take_drop hnodup_p (le_refl 10)
    have hqid_in_drop : q.id ∈
        ((getPendingProgressItems cfg.id st.store).map (fun r => r.id)).drop 10 := by
      rw [← List.map_drop]
      exact List.mem_map_of_mem (fun r => r.id) hdrop
    constructor
    · rw [performBackgroundSync_ids env st cfg hc hnet]
      intro hmem
      rw [List.map_take] at hmem
      exact hdisj hmem hqid_in_drop
    · have hall : ∀ p ∈ (getPendingProgressItems cfg.id st.store).take 10, q.id ≠ p.id := by
        intro p' hp' heq
        have hp'' : p'.id ∈
            ((getPendingProgressItems cfg.id st.store).map (fun r => r.id)).take 10 := by
          rw [← List.map_take]
          exact List.mem_map_of_mem (fun r => r.id) hp'
        exact hdisj (heq ▸ hp'') hqid_in_drop
      have hrun : (performBackgroundSync env st).1 =
          (((getPendingProgressItems cfg.id st.store).take 10).foldl
            (backgroundFoldStep env) (st, [], [], 0)).1 := by
        unfold performBackgroundSync
        simp only [hc]
        rw [if_neg (by simp [hnet])]
      rw [hrun]
      rw [foldBg_store_ne env q.id ((getPendingProgressItems cfg.id st.store).take 10)
        (st, [], [], 0) hall]
      show storeFindById st.store q.id = some q
      exact mem_nodup_storeFindById st.store q hnodup
        (hsub.subset (List.mem_of_mem_drop hdrop))

/-- Fixture: one pending record per single-letter tag, all of server "srv". -/
def capRecord (i : String) : LocalMediaProgress :=
  { id := "cap-" ++ i, localLibraryItemId := "lcap-" ++ i
    serverConnectionConfigId := some "srv", ebookLocation := some "cfi-cap"
    ebookProgress := mkRat 1 2, lastUpdate := 100, isFinished := false
    lastServerSync := none }

/-- Fixture: environment for the cap scenario (mapping absent, so each
attempt is a no-op). -/
def capEnv : SyncEnv :=
  { serverConfig := some { id := "srv" }, networkAvailable := true
    serverLibraryItemId := fun _ => none
    fetchProgress := fun _ => .ok none
    pushResult := fun _ => true, now := 0 }

/-- Fixture: manager state with eleven pending records. -/
def capState : ManagerState :=
  { retryAttempts := [], isCurrentlySyncing := false
    store := ["a", "b", "c", "d", "e", "f", "g", "h", "i", "j", "k"].map capRecord }

/-- Claim C10 witness: the cap theorem at a state with eleven pending
records; the eleventh is beyond the cap. -/
theorem C10_background_caps_witness :
    (performBackgroundSync capEnv capState).2.2.1.length ≤ 10 ∧
    (performQuickSync capEnv capState).2.2.1.length ≤ 3 ∧
    ((capRecord "k").id ∉ (performBackgroundSync capEnv capState).2.2.1 ∧
     storeFindById (performBackgroundSync capEnv capState).1.store (capRecord "k").id =
       some (capRecord "k")) :=
  ⟨(C10_background_caps capEnv capState).1, (C10_background_caps capEnv capState).2.1,
   (C10_background_caps capEnv capState).2.2 { id := "srv" } (capRecord "k") rfl rfl
     (by decide) (by decide)⟩

end EbookSync
